import Mathlib

/-!
Verification of the WPC RS-485 communication core.

Shallow embedding of the Python sources:
* `core/comunication/protocol.py` (`ProtocolHandler`): frame encoders,
  checksum, `validate_response`, `parse_status_response`;
* `core/communication/polling.py` (`PollingManager`, `ModuleStatus`):
  response analysis, novelty processing, communication-error handling;
* `utils/id_generator.py` (`IDGenerator`): movement-id generation/parsing;
* `core/database/managers.py` (`TicketManager`): ticket validation and exit.

Strings on the wire are modelled as lists of Unicode code points
(`List Nat`), matching the Python `str` type, where `ord`/`chr` convert between
characters and code points.  Machine integers do not overflow in the
Python source, so `Nat`/`Int` are used directly; the one masked value
(`checksum & 0xFF`) is modelled with `% 256`.
-/

namespace WPC

/-! ### Protocol constants (`ProtocolHandler`) -/

def ASCII_STX : Nat := 0x02
def ASCII_ETX : Nat := 0x03

/-! ### Decimal formatting

`f"{address:02d}"` renders a nonnegative integer in decimal, left-padded
with the zero digit to at least two characters.  The digit extraction is written
with explicit fuel (`n + 1` digits suffice for `n`) so that the function
reduces in the kernel. -/

def natDecDigitsAux : Nat → Nat → List Nat
  | 0, _ => []
  | fuel + 1, n =>
    if n < 10 then [48 + n]
    else natDecDigitsAux fuel (n / 10) ++ [48 + n % 10]

def natDecDigits (n : Nat) : List Nat :=
  natDecDigitsAux (n + 1) n

def fmt02d (n : Nat) : List Nat :=
  let ds := natDecDigits n
  List.replicate (2 - ds.length) 48 ++ ds

/-! ### Checksum (`ProtocolHandler.calculate_checksum`)

Sum of the code points of the command, low byte, rendered as two
uppercase hexadecimal digits (`f"{value:02X}"`). -/

def hexDigit (n : Nat) : Nat :=
  if n < 10 then 48 + n else 55 + n

def calculate_checksum (command : List Nat) : List Nat :=
  if command = [] then [48, 48]
  else
    let v := (command.foldl (· + ·) 0) % 256
    [hexDigit (v / 16), hexDigit (v % 16)]

/-! ### Frame encoders

Each encoder builds `STX ++ address(2 digits) ++ OP ++ payload ++ ETX`
and appends the checksum of that body.  `read_status` raises
`ValueError` outside `1..255`, modelled as `none`. -/

def read_status_body (address : Nat) : List Nat :=
  [ASCII_STX] ++ fmt02d address ++ [0x53, 0x30] ++ [ASCII_ETX]

def read_status_frame (address : Nat) : List Nat :=
  read_status_body address ++ calculate_checksum (read_status_body address)

def read_status (address : Nat) : Option (List Nat) :=
  if 1 ≤ address ∧ address ≤ 255 then some (read_status_frame address) else none

def ok_download_novelty_body (address : Nat) : List Nat :=
  [ASCII_STX] ++ fmt02d address ++ [0x4F, 0x31] ++ [ASCII_ETX]

def ok_download_novelty (address : Nat) : List Nat :=
  ok_download_novelty_body address ++ calculate_checksum (ok_download_novelty_body address)

def continue_sequence_body (address : Nat) (extra_data : List Nat) : List Nat :=
  [ASCII_STX] ++ fmt02d address ++ [0x4B, 0x31] ++ extra_data ++ [ASCII_ETX]

def continue_sequence (address : Nat) (extra_data : List Nat) : List Nat :=
  continue_sequence_body address extra_data ++
    calculate_checksum (continue_sequence_body address extra_data)

/-! ### Python `int()` on a short slice

`int(response[1:3])` strips surrounding whitespace, accepts an optional
sign, then requires a nonempty run of decimal digits.  (Underscore
separators cannot occur in a valid position inside a two-character
slice, so they are not modelled.)  Failure raises `ValueError`,
modelled as `none`. -/

def isPySpace (c : Nat) : Bool :=
  c == 32 || c == 9 || c == 10 || c == 13 || c == 11 || c == 12

def isDecDigit (c : Nat) : Bool :=
  48 ≤ c && c ≤ 57

def digitsVal (ds : List Nat) : Int :=
  ds.foldl (fun a d => a * 10 + ((d : Int) - 48)) 0

def pyInt (s : List Nat) : Option Int :=
  let t := ((s.dropWhile isPySpace).reverse.dropWhile isPySpace).reverse
  match t with
  | [] => none
  | c :: rest =>
    let signed : Int × List Nat :=
      if c == 43 then (1, rest)
      else if c == 45 then (-1, rest)
      else (1, c :: rest)
    if !signed.2.isEmpty && signed.2.all isDecDigit then
      some (signed.1 * digitsVal signed.2)
    else none

/-! ### Response validation (`ProtocolHandler.validate_response`) -/

/-- Failure reasons of `validate_response`; each corresponds to one
nonempty error string assigned by the Python source. -/
inductive VError where
  | tooShort
  | badSTX
  | noETX
  | missingChecksum
  | checksumMismatch (expected received : List Nat)
  | invalidAddress
  | addressMismatch (expected received : Int)
deriving DecidableEq, Repr

/-- The `result` dict built by `validate_response`
(initially all fields false, empty or zero). -/
structure ValidationResult where
  valid : Bool
  error : Option VError
  address : Int
  command : List Nat
  data : List Nat
deriving DecidableEq, Repr

def ValidationResult.base : ValidationResult :=
  { valid := false, error := none, address := 0, command := [], data := [] }

/-- ASCII case of `str.upper()` on a single code point (checksum digits
produced by the codec are ASCII, so the ASCII mapping is what the
comparison exercises). -/
def upperCp (c : Nat) : Nat :=
  if 97 ≤ c ∧ c ≤ 122 then c - 32 else c

def validate_response (response : List Nat) (expected_address : Int) : ValidationResult :=
  if response.length < 7 then
    { ValidationResult.base with error := some .tooShort }
  else if response.headD 0 ≠ ASCII_STX then
    { ValidationResult.base with error := some .badSTX }
  else if ¬ response.contains ASCII_ETX then
    { ValidationResult.base with error := some .noETX }
  else
    -- `response.find(ETX)` cannot return -1 here: membership was just checked,
    -- so the `etx_pos == -1` branch of the source is dead.
    let etx_pos := response.findIdx (· == ASCII_ETX)
    if response.length < etx_pos + 3 then
      { ValidationResult.base with error := some .missingChecksum }
    else
      let received_checksum := (response.drop (etx_pos + 1)).take 2
      let command_body := response.take (etx_pos + 1)
      let calculated_checksum := calculate_checksum command_body
      if received_checksum.map upperCp ≠ calculated_checksum.map upperCp then
        { ValidationResult.base with
            error := some (.checksumMismatch calculated_checksum received_checksum) }
      else
        match pyInt ((response.drop 1).take 2) with
        | none => { ValidationResult.base with error := some .invalidAddress }
        | some address =>
          if address ≠ expected_address then
            { ValidationResult.base with
                error := some (.addressMismatch expected_address address)
                address := address }
          else
            { valid := true
              error := none
              address := address
              command := (response.drop 3).take 2
              data := if etx_pos > 5 then (response.drop 5).take (etx_pos - 5) else [] }

/-! ### Status payload decoding (`ProtocolHandler.parse_status_response`)

The Python dict initialises `has_novelty` to `False` and the bit fields
to `0`; when at least two payload characters are present it overwrites
them with `(ord(data[0]) >> k) & 1` (integers 0/1, so the novelty flag
is stored as an int), and the eight input bits of `ord(data[1])`. -/

structure StatusRec where
  barrier_state : Nat
  sensor_ddmm : Nat
  inputs : List Nat
  outputs : List Nat
  has_novelty : Nat
  error_code : Nat
deriving DecidableEq, Repr

def StatusRec.base : StatusRec :=
  { barrier_state := 0, sensor_ddmm := 0, inputs := [], outputs := []
    has_novelty := 0, error_code := 0 }

def parse_status_response (response_data : List Nat) : StatusRec :=
  if response_data.length ≥ 2 then
    let general_state := response_data.headD 0
    let inputs_byte := (response_data.drop 1).headD 0
    { StatusRec.base with
        barrier_state := general_state % 2
        sensor_ddmm := (general_state / 2) % 2
        has_novelty := (general_state / 128) % 2
        inputs := (List.range 8).map fun i => (inputs_byte >>> i) % 2 }
  else
    StatusRec.base

/-! ### Polling engine (`core/communication/polling.py`)

`PollingManager` is embedded as explicit state passing.  The module
record mirrors the `ModuleStatus` dataclass; the bus record gathers the
manager fields touched by the error path (`consecutive_errors`,
`max_consecutive_errors`, `port_reopen_count`).  Event publications
(`_notify_*`) are returned as a list.  External effects — the access
decision of `MovementManager.validate_identification`, the success of
`MovementManager.create_movement`, and the success of
`SerialCommunication.reopen_port` — are supplied by an `ExtEnv`
parameter. -/

/-- Embeds `ModuleState` (`core/modules/module_types.py`). -/
inductive ModuleState where
  | offline
  | online
  | error
  | maintenance
  | initializing
deriving DecidableEq, Repr

/-- The `ModuleStatus` dataclass fields read or written by the polling
functions under verification. -/
structure ModuleStatus where
  module_id : Nat
  address : Nat
  state : ModuleState := .offline
  barrier_state : Nat := 0
  sensor_ddmm : Nat := 0
  retry_count : Nat := 0
  max_retries : Nat := 3
  consecutive_errors : Nat := 0
  last_communication : Option Int := none
  last_command : List Nat := []
  pending_commands : List (List Nat) := []
  requires_response : Bool := true
deriving DecidableEq, Repr

/-- Bus-level fields of `PollingManager`. -/
structure Bus where
  consecutive_errors : Nat := 0
  max_consecutive_errors : Nat := 10
  port_reopen_count : Nat := 0
deriving DecidableEq, Repr

/-- Results of the external calls made during response processing. -/
structure ExtEnv where
  access_allowed : Bool
  movement_ok : Bool
  reopen_ok : Bool
deriving DecidableEq, Repr

inductive PollingEvent where
  | module_state_changed
  | movement_detected
deriving DecidableEq, Repr

/-- Embeds `ModuleStatus.add_pending_command`: append unless already queued. -/
def add_pending_command (m : ModuleStatus) (command : List Nat) : ModuleStatus :=
  if command ∈ m.pending_commands then m
  else { m with pending_commands := m.pending_commands ++ [command] }

/-- Embeds `ModuleStatus.clear_pending_commands`. -/
def clear_pending_commands (m : ModuleStatus) : ModuleStatus :=
  { m with pending_commands := [] }

/-- Embeds `PollingManager._process_communication_error`.  Returns the updated
module, the updated bus, the published events, and whether
`_reopen_serial_port` was invoked.  Inside `_reopen_serial_port` the
counter reset and the diagnostic increment happen only when
`serial_comm.reopen_port()` reports success. -/
def process_communication_error (env : ExtEnv) (m : ModuleStatus) (bus : Bus) :
    ModuleStatus × Bus × List PollingEvent × Bool :=
  let m1 := { m with
    retry_count := m.retry_count + 1
    consecutive_errors := m.consecutive_errors + 1 }
  let bus1 := { bus with consecutive_errors := bus.consecutive_errors + 1 }
  let stepModule : ModuleStatus × List PollingEvent :=
    if m1.retry_count ≥ m1.max_retries then
      (clear_pending_commands { m1 with state := .error, retry_count := 0 },
       [PollingEvent.module_state_changed])
    else (m1, [])
  let stepBus : Bus × Bool :=
    if bus1.consecutive_errors ≥ bus1.max_consecutive_errors then
      (if env.reopen_ok then
         { bus1 with
             consecutive_errors := 0
             port_reopen_count := bus1.port_reopen_count + 1 }
       else bus1,
       true)
    else (bus1, false)
  (stepModule.1, stepBus.1, stepModule.2, stepBus.2)

/-- Embeds `PollingManager._process_identification`: on an allowed access with
a successfully created movement, queue `continue_sequence(address)`
when the module requires a response and publish `movement_detected`. -/
def process_identification (env : ExtEnv) (m : ModuleStatus) :
    ModuleStatus × List PollingEvent :=
  if env.access_allowed then
    if env.movement_ok then
      let m1 := if m.requires_response
        then add_pending_command m (continue_sequence m.address [])
        else m
      (m1, [PollingEvent.movement_detected])
    else (m, [])
  else (m, [])

/-- Embeds `PollingManager._process_novelty`: only when the payload has at
least 8 characters, process the 8-character identification and queue
`ok_download_novelty(address)`. -/
def process_novelty (env : ExtEnv) (response_data : List Nat) (m : ModuleStatus) :
    ModuleStatus × List PollingEvent :=
  if response_data.length ≥ 8 then
    let step := process_identification env m
    (add_pending_command step.1 (ok_download_novelty m.address), step.2)
  else (m, [])

/-- Embeds `PollingManager._process_status_response`: decode the status bytes,
update barrier/sensor state, publish `module_state_changed` when one
changed. -/
def process_status_response (response_data : List Nat) (m : ModuleStatus) :
    ModuleStatus × List PollingEvent :=
  let status := parse_status_response response_data
  let m1 := { m with
    barrier_state := status.barrier_state
    sensor_ddmm := status.sensor_ddmm }
  if m.barrier_state ≠ m1.barrier_state ∨ m.sensor_ddmm ≠ m1.sensor_ddmm then
    (m1, [PollingEvent.module_state_changed])
  else (m1, [])

/-- Embeds `PollingManager._process_valid_response`: branch on the reply
opcode; `S0`/`S6` update status, `S6` additionally processes the
buffered novelty; `K1`/`K0`/`O1` only log; any other opcode falls
through with no action. -/
def process_valid_response (env : ExtEnv) (validation : ValidationResult)
    (m : ModuleStatus) : ModuleStatus × List PollingEvent :=
  if validation.command = [0x53, 0x30] ∨ validation.command = [0x53, 0x36] then
    let step1 := process_status_response validation.data m
    if validation.command = [0x53, 0x36] then
      let step2 := process_novelty env validation.data step1.1
      (step2.1, step1.2 ++ step2.2)
    else step1
  else (m, [])

/-- Embeds `PollingManager._analyze_response`: validate the raw reply against
the address of the module; on failure divert to the communication-error
path; on success reset the error counters, mark the module online,
stamp `last_communication`, process the reply, and finally publish
`module_state_changed` unconditionally. -/
def analyze_response (env : ExtEnv) (response : List Nat) (now : Int)
    (m : ModuleStatus) (bus : Bus) : ModuleStatus × Bus × List PollingEvent :=
  let validation := validate_response response (m.address : Int)
  if validation.valid then
    let bus1 : Bus := { bus with consecutive_errors := 0 }
    let m1 := { m with
      retry_count := 0
      consecutive_errors := 0
      last_communication := some now
      state := ModuleState.online }
    let step := process_valid_response env validation m1
    (step.1, bus1, step.2 ++ [PollingEvent.module_state_changed])
  else
    let step := process_communication_error env m bus
    (step.1, step.2.1, step.2.2.1)

/-- Iterated communication failures: final module and bus, all events
published, and the number of `_reopen_serial_port` invocations. -/
def runCommFailures (env : ExtEnv) : Nat → ModuleStatus → Bus →
    ModuleStatus × Bus × List PollingEvent × Nat
  | 0, m, bus => (m, bus, [], 0)
  | n + 1, m, bus =>
    let step := process_communication_error env m bus
    let rest := runCommFailures env n step.1 step.2.1
    (rest.1, rest.2.1, step.2.2.1 ++ rest.2.2.1,
     (if step.2.2.2 then 1 else 0) + rest.2.2.2)

/-! ### Movement ids (`utils/id_generator.py`)

`generate_movement_id` reads `datetime.now()`; the instant is made an
explicit argument, holding the day difference to `BASE_DATE`
(2007-06-01) and the time-of-day fields the source reads. -/

structure Instant where
  daysSinceBase : Int
  hour : Nat
  minute : Nat
  second : Nat
  microsecond : Nat
deriving DecidableEq, Repr

def milliseconds_today (t : Instant) : Nat :=
  t.hour * 3600000 + t.minute * 60000 + t.second * 1000 + t.microsecond / 1000

/-- Embeds `IDGenerator.generate_movement_id`:
`days_diff * 100000000 + milliseconds_today`. -/
def generate_movement_id (t : Instant) : Int :=
  t.daysSinceBase * 100000000 + (milliseconds_today t : Int)

inductive ParsedMovement where
  | ok (daysFromBase : Int) (hours minutes seconds milliseconds : Nat)
  | error (msg : String)
deriving DecidableEq, Repr

/-- Embeds `IDGenerator.parse_movement_id`.  The module imports only
`datetime` and `date` from the `datetime` package and binds `time` to
the `time` *module*; the `try` body then evaluates
`cls.BASE_DATE + timedelta(days=days_from_base)`, and the name
`timedelta` is unbound, so every call raises
a NameError for the unbound name, which the `except`
branch turns into the error dict.  No input reaches the `ok` shape. -/
def parse_movement_id (_movement_id : Int) : ParsedMovement :=
  ParsedMovement.error "NameError: name timedelta is not defined"

/-! ### Tickets (`core/database/managers.py`, `TicketManager`)

The `tck` (active) and `tckhst` (history) tables are embedded as lists
of rows; `query(Ticket).filter(Ticket.Numero == n).first()` is the
first list element with that `Numero`.  Instants are integer seconds;
`int(duration.total_seconds() / 60)` truncates toward zero
(`Int.tdiv`).  Each manager call is a function from the database state,
returning the new state alongside the `(success, info)` pair. -/

structure TicketRec where
  ticketID : Int
  numero : Int
  fechaHoraIngreso : Int
  moduloIngresoID : Int
  validado : Bool
deriving DecidableEq, Repr

structure TicketHistoryRec where
  ticketID : Int
  numero : Int
  fechaHoraIngreso : Int
  moduloIngresoID : Int
  fechaHoraSalida : Int
  moduloSalidaID : Int
deriving DecidableEq, Repr

structure TicketDB where
  active : List TicketRec
  history : List TicketHistoryRec
deriving DecidableEq, Repr

structure TicketInfo where
  ticket_number : Int
  entry_time : Int
  duration_minutes : Int
  entry_module : Int
deriving DecidableEq, Repr

structure ExitInfo where
  ticket_number : Int
  entry_time : Int
  exit_time : Int
  duration_minutes : Int
  entry_module : Int
  exit_module : Int
deriving DecidableEq, Repr

/-- Embeds `TicketManager.validate_ticket`: look the number up in the active
set; absent → `(False, {"error": ...})`; present → stay duration in
whole minutes from `now`, no mutation. -/
def validate_ticket (db : TicketDB) (ticket_number : Int) (now : Int) :
    TicketDB × Bool × Option TicketInfo :=
  match db.active.find? (fun t => t.numero == ticket_number) with
  | none => (db, false, none)
  | some t =>
    (db, true,
     some { ticket_number := ticket_number
            entry_time := t.fechaHoraIngreso
            duration_minutes := (now - t.fechaHoraIngreso).tdiv 60
            entry_module := t.moduloIngresoID })

/-- Embeds `TicketManager.process_ticket_exit`: find the active ticket, insert
the history row carrying `ModuloSalidaID = module_id`, delete the
active row (the first row with that `Numero`), and report the stay. -/
def process_ticket_exit (db : TicketDB) (ticket_number : Int) (module_id : Int)
    (exit_time : Int) : TicketDB × Bool × Option ExitInfo :=
  match db.active.find? (fun t => t.numero == ticket_number) with
  | none => (db, false, none)
  | some t =>
    let hist : TicketHistoryRec :=
      { ticketID := t.ticketID
        numero := t.numero
        fechaHoraIngreso := t.fechaHoraIngreso
        moduloIngresoID := t.moduloIngresoID
        fechaHoraSalida := exit_time
        moduloSalidaID := module_id }
    ({ active := db.active.eraseP (fun x => x.numero == ticket_number)
       history := db.history ++ [hist] },
     true,
     some { ticket_number := ticket_number
            entry_time := t.fechaHoraIngreso
            exit_time := exit_time
            duration_minutes := (exit_time - t.fechaHoraIngreso).tdiv 60
            entry_module := t.moduloIngresoID
            exit_module := module_id })

/-! ## Theorems -/

/-- C1: for every address `a` in `1..99`, the status-poll frame built
by `read_status` validates against the same expected address, yielding
a valid result with that address, command `"S0"` and empty data. -/
theorem read_status_validates_roundtrip (a : Nat) (h1 : 1 ≤ a) (h2 : a ≤ 99) :
    read_status a = some (read_status_frame a) ∧
    validate_response (read_status_frame a) (a : Int) =
      { valid := true, error := none, address := (a : Int),
        command := [0x53, 0x30], data := [] } := by
  have key : ∀ b : Nat, b < 100 → 1 ≤ b →
      read_status b = some (read_status_frame b) ∧
      validate_response (read_status_frame b) (b : Int) =
        { valid := true, error := none, address := (b : Int),
          command := [0x53, 0x30], data := [] } := by decide
  exact key a (by omega) h1

/-- Witness for C1 at address 42. -/
theorem read_status_validates_roundtrip_witness :
    read_status 42 = some (read_status_frame 42) ∧
    validate_response (read_status_frame 42) (42 : Int) =
      { valid := true, error := none, address := (42 : Int),
        command := [0x53, 0x30], data := [] } :=
  read_status_validates_roundtrip 42 (by decide) (by decide)

/-- C2 counterexample: `read_status(7)` does not end in the checksum
characters `"0F"` claimed by the spec; the code-point sum of the body
is `0xEF`, so the produced frame ends in `"EF"`
(`[0x45, 0x46] = [69, 70]`, not `[0x30, 0x46] = [48, 70]`). -/
theorem read_status_seven_checksum_counterexample :
    read_status 7 = some [2, 48, 55, 83, 48, 3, 69, 70] ∧
    read_status 7 ≠ some [2, 48, 55, 83, 48, 3, 48, 70] ∧
    [2, 48, 49, 83, 48].foldl (· + ·) 0 ≠ 0x10F := by decide

/-- C2 (amended): `read_status(7)` is exactly
`0x02 :: "07S0" :: 0x03` followed by checksum `"EF"` (the low byte of
the sum of the six preceding code points is `0xEF`); parsing it with
expected address 7 yields a valid result `{addr 7, op S0, empty data}`,
and parsing it with expected address 8 fails with an address
mismatch. -/
theorem read_status_seven_frame_and_parses :
    read_status 7 = some [2, 48, 55, 83, 48, 3, 69, 70] ∧
    ([2, 48, 55, 83, 48, 3] : List Nat).foldl (· + ·) 0 % 256 = 0xEF ∧
    validate_response [2, 48, 55, 83, 48, 3, 69, 70] 7 =
      { valid := true, error := none, address := 7,
        command := [0x53, 0x30], data := [] } ∧
    validate_response [2, 48, 55, 83, 48, 3, 69, 70] 8 =
      { valid := false, error := some (.addressMismatch 8 7),
        address := 7, command := [], data := [] } := by decide

/-- C10: `validate_response` is total by construction and observes the
error discipline: every result either is valid with no error recorded,
or is invalid and carries a failure reason (the reason that the Python
source writes into the error string, including the conversion of an
address-parse exception into the invalid-address result). -/
theorem validate_response_error_discipline (response : List Nat) (expected : Int) :
    ((validate_response response expected).valid = true ∧
      (validate_response response expected).error = none) ∨
    ((validate_response response expected).valid = false ∧
      (validate_response response expected).error ≠ none) := by
  unfold validate_response
  repeat' first | split | (dsimp only)
  all_goals simp [ValidationResult.base]

/-! ### Helper lemmas on the polling step functions -/

theorem add_pending_command_mem_self (m : ModuleStatus) (cmd : List Nat) :
    cmd ∈ (add_pending_command m cmd).pending_commands := by
  unfold add_pending_command
  split
  · assumption
  · simp

theorem add_pending_command_preserves (m : ModuleStatus) (cmd : List Nat) :
    (add_pending_command m cmd).address = m.address ∧
    (add_pending_command m cmd).retry_count = m.retry_count ∧
    (add_pending_command m cmd).consecutive_errors = m.consecutive_errors ∧
    (add_pending_command m cmd).state = m.state := by
  unfold add_pending_command
  split <;> simp

theorem process_status_response_preserves (d : List Nat) (m : ModuleStatus) :
    (process_status_response d m).1.address = m.address ∧
    (process_status_response d m).1.retry_count = m.retry_count ∧
    (process_status_response d m).1.consecutive_errors = m.consecutive_errors ∧
    (process_status_response d m).1.state = m.state := by
  unfold process_status_response
  repeat' first | split | (dsimp only)
  all_goals simp

theorem process_identification_preserves (env : ExtEnv) (m : ModuleStatus) :
    (process_identification env m).1.address = m.address ∧
    (process_identification env m).1.retry_count = m.retry_count ∧
    (process_identification env m).1.consecutive_errors = m.consecutive_errors ∧
    (process_identification env m).1.state = m.state := by
  unfold process_identification
  repeat' first | split | (dsimp only)
  all_goals simp [add_pending_command_preserves]

theorem process_novelty_preserves (env : ExtEnv) (d : List Nat) (m : ModuleStatus) :
    (process_novelty env d m).1.address = m.address ∧
    (process_novelty env d m).1.retry_count = m.retry_count ∧
    (process_novelty env d m).1.consecutive_errors = m.consecutive_errors ∧
    (process_novelty env d m).1.state = m.state := by
  unfold process_novelty
  repeat' first | split | (dsimp only)
  · refine ⟨?_, ?_, ?_, ?_⟩ <;>
      simp [(add_pending_command_preserves _ _).1,
            (add_pending_command_preserves _ _).2.1,
            (add_pending_command_preserves _ _).2.2.1,
            (add_pending_command_preserves _ _).2.2.2,
            (process_identification_preserves _ _).1,
            (process_identification_preserves _ _).2.1,
            (process_identification_preserves _ _).2.2.1,
            (process_identification_preserves _ _).2.2.2]
  · simp

theorem process_valid_response_preserves (env : ExtEnv) (v : ValidationResult)
    (m : ModuleStatus) :
    (process_valid_response env v m).1.retry_count = m.retry_count ∧
    (process_valid_response env v m).1.consecutive_errors = m.consecutive_errors ∧
    (process_valid_response env v m).1.state = m.state := by
  unfold process_valid_response
  repeat' first | split | (dsimp only)
  · refine ⟨?_, ?_, ?_⟩ <;>
      simp [(process_novelty_preserves _ _ _).2.1,
            (process_novelty_preserves _ _ _).2.2.1,
            (process_novelty_preserves _ _ _).2.2.2,
            (process_status_response_preserves _ _).2.1,
            (process_status_response_preserves _ _).2.2.1,
            (process_status_response_preserves _ _).2.2.2]
  · refine ⟨?_, ?_, ?_⟩ <;>
      simp [(process_status_response_preserves _ _).2.1,
            (process_status_response_preserves _ _).2.2.1,
            (process_status_response_preserves _ _).2.2.2]
  · simp

/-- C6: after the scheduler analyses any reply that passes validation,
the module has `consecutive_errors = 0`, `retry_count = 0` and is
`online`; the subsequent per-opcode processing touches none of those
fields. -/
theorem analyze_valid_resets_counters (env : ExtEnv) (response : List Nat) (now : Int)
    (m : ModuleStatus) (bus : Bus)
    (h : (validate_response response (m.address : Int)).valid = true) :
    (analyze_response env response now m bus).1.consecutive_errors = 0 ∧
    (analyze_response env response now m bus).1.retry_count = 0 ∧
    (analyze_response env response now m bus).1.state = ModuleState.online := by
  unfold analyze_response
  simp only [h, if_true]
  try dsimp only
  refine ⟨?_, ?_, ?_⟩ <;>
    simp [(process_valid_response_preserves _ _ _).1,
          (process_valid_response_preserves _ _ _).2.1,
          (process_valid_response_preserves _ _ _).2.2]

/-- Witness for C6: a valid empty `S0` reply from address 1. -/
theorem analyze_valid_resets_counters_witness :
    (analyze_response ⟨true, true, true⟩ [2, 48, 49, 83, 48, 3, 69, 57] 0
        { module_id := 1, address := 1, retry_count := 2, consecutive_errors := 5 }
        { consecutive_errors := 7 }).1.consecutive_errors = 0 ∧
    (analyze_response ⟨true, true, true⟩ [2, 48, 49, 83, 48, 3, 69, 57] 0
        { module_id := 1, address := 1, retry_count := 2, consecutive_errors := 5 }
        { consecutive_errors := 7 }).1.retry_count = 0 ∧
    (analyze_response ⟨true, true, true⟩ [2, 48, 49, 83, 48, 3, 69, 57] 0
        { module_id := 1, address := 1, retry_count := 2, consecutive_errors := 5 }
        { consecutive_errors := 7 }).1.state = ModuleState.online :=
  analyze_valid_resets_counters ⟨true, true, true⟩ [2, 48, 49, 83, 48, 3, 69, 57] 0
    { module_id := 1, address := 1, retry_count := 2, consecutive_errors := 5 }
    { consecutive_errors := 7 } (by decide)

/-- The opcodes handled by `_process_valid_response` / known to the protocol. -/
def knownOps : List (List Nat) :=
  [[0x53, 0x30], [0x53, 0x36], [0x4B, 0x31], [0x4B, 0x30], [0x4F, 0x31]]

/-- C7 counterexample: the well-formed frame `STX "01" "Z9" ETX "F9"`
carries the unknown opcode `"Z9"`, yet passes validation and is
processed as a success — the retry and consecutive-error counters of a
module that had accumulated failures are reset and the module goes
online, instead of the failure being counted against the retry
budget. -/
theorem unknown_opcode_counterexample :
    (validate_response [2, 48, 49, 90, 57, 3, 70, 57] 1).valid = true ∧
    (validate_response [2, 48, 49, 90, 57, 3, 70, 57] 1).command = [90, 57] ∧
    [90, 57] ∉ knownOps ∧
    (analyze_response ⟨true, true, true⟩ [2, 48, 49, 90, 57, 3, 70, 57] 0
        { module_id := 1, address := 1, retry_count := 1, consecutive_errors := 4 }
        { consecutive_errors := 4 }).1.retry_count = 0 ∧
    (analyze_response ⟨true, true, true⟩ [2, 48, 49, 90, 57, 3, 70, 57] 0
        { module_id := 1, address := 1, retry_count := 1, consecutive_errors := 4 }
        { consecutive_errors := 4 }).1.consecutive_errors = 0 ∧
    (analyze_response ⟨true, true, true⟩ [2, 48, 49, 90, 57, 3, 70, 57] 0
        { module_id := 1, address := 1, retry_count := 1, consecutive_errors := 4 }
        { consecutive_errors := 4 }).1.state = ModuleState.online ∧
    (analyze_response ⟨true, true, true⟩ [2, 48, 49, 90, 57, 3, 70, 57] 0
        { module_id := 1, address := 1, retry_count := 1, consecutive_errors := 4 }
        { consecutive_errors := 4 }).2.1.consecutive_errors = 0 := by decide

/-- C7 (amended): a reply that passes frame validation but carries an
opcode outside the known set is treated as a *successful* response:
the error counters reset, the module goes online with a fresh
communication stamp and an untouched command queue, the bus counter
resets, and only the unconditional state-change notification is
published; the unknown opcode is otherwise ignored. -/
theorem unknown_opcode_treated_as_success (env : ExtEnv) (response : List Nat)
    (now : Int) (m : ModuleStatus) (bus : Bus)
    (h1 : (validate_response response (m.address : Int)).valid = true)
    (h2 : (validate_response response (m.address : Int)).command ∉ knownOps) :
    (analyze_response env response now m bus).1 =
      { m with retry_count := 0, consecutive_errors := 0,
               last_communication := some now, state := ModuleState.online } ∧
    (analyze_response env response now m bus).2.1 = { bus with consecutive_errors := 0 } ∧
    (analyze_response env response now m bus).2.2 =
      [PollingEvent.module_state_changed] := by
  have hs0 : ¬ (validate_response response (m.address : Int)).command = [0x53, 0x30] := by
    intro hc
    exact h2 (by rw [hc]; simp [knownOps])
  have hs6 : ¬ (validate_response response (m.address : Int)).command = [0x53, 0x36] := by
    intro hc
    exact h2 (by rw [hc]; simp [knownOps])
  unfold analyze_response
  simp only [h1, if_true]
  try dsimp only
  unfold process_valid_response
  simp [hs0, hs6]

/-- Witness for C7 (amended), at the `"Z9"` frame of the counterexample. -/
theorem unknown_opcode_treated_as_success_witness :
    (analyze_response ⟨true, true, true⟩ [2, 48, 49, 90, 57, 3, 70, 57] 0
        { module_id := 1, address := 1, retry_count := 1, consecutive_errors := 4 }
        { consecutive_errors := 4 }).1 =
      { module_id := 1, address := 1, retry_count := 0, consecutive_errors := 0,
        last_communication := some 0, state := ModuleState.online } ∧
    (analyze_response ⟨true, true, true⟩ [2, 48, 49, 90, 57, 3, 70, 57] 0
        { module_id := 1, address := 1, retry_count := 1, consecutive_errors := 4 }
        { consecutive_errors := 4 }).2.1 = { consecutive_errors := 0 } ∧
    (analyze_response ⟨true, true, true⟩ [2, 48, 49, 90, 57, 3, 70, 57] 0
        { module_id := 1, address := 1, retry_count := 1, consecutive_errors := 4 }
        { consecutive_errors := 4 }).2.2 = [PollingEvent.module_state_changed] :=
  unknown_opcode_treated_as_success ⟨true, true, true⟩ [2, 48, 49, 90, 57, 3, 70, 57] 0
    { module_id := 1, address := 1, retry_count := 1, consecutive_errors := 4 }
    { consecutive_errors := 4 } (by decide) (by decide)

/-- C3 counterexample: a valid `S0` reply whose first payload byte is
`0x83` (novelty bit set, 8 payload bytes) does not trigger novelty
handling — the pending-command queue stays empty, so no
`ok_download_novelty` acknowledgement is enqueued, although the claim
requires one whenever the parsed status byte has bit 7 set. -/
theorem novelty_bit_no_ack_counterexample :
    (validate_response [2, 48, 49, 83, 48, 131, 48, 48, 48, 48, 48, 48, 48, 3, 66, 67]
        1).valid = true ∧
    (validate_response [2, 48, 49, 83, 48, 131, 48, 48, 48, 48, 48, 48, 48, 3, 66, 67]
        1).command = [0x53, 0x30] ∧
    (parse_status_response
        (validate_response [2, 48, 49, 83, 48, 131, 48, 48, 48, 48, 48, 48, 48, 3, 66, 67]
          1).data).has_novelty = 1 ∧
    (analyze_response ⟨true, true, true⟩
        [2, 48, 49, 83, 48, 131, 48, 48, 48, 48, 48, 48, 48, 3, 66, 67] 0
        { module_id := 1, address := 1 } {}).1.pending_commands = [] ∧
    ok_download_novelty 1 ∉
      (analyze_response ⟨true, true, true⟩
          [2, 48, 49, 83, 48, 131, 48, 48, 48, 48, 48, 48, 48, 3, 66, 67] 0
          { module_id := 1, address := 1 } {}).1.pending_commands := by decide

/-- C3 (amended): only an `S6` reply triggers novelty handling (the
novelty bit decoded from an `S0` status payload is ignored), and the
`ok_download_novelty` acknowledgement for the module is enqueued
exactly when the `S6` payload carries at least the 8 identification
characters; in that case the ack frame is in the pending queue after
processing, so it is dispatched on the next turn of that module. -/
theorem s6_enqueues_novelty_ack (env : ExtEnv) (response : List Nat) (now : Int)
    (m : ModuleStatus) (bus : Bus)
    (h1 : (validate_response response (m.address : Int)).valid = true)
    (h2 : (validate_response response (m.address : Int)).command = [0x53, 0x36])
    (h3 : 8 ≤ (validate_response response (m.address : Int)).data.length) :
    ok_download_novelty m.address ∈
      (analyze_response env response now m bus).1.pending_commands := by
  unfold analyze_response
  simp only [h1, if_true]
  try dsimp only
  unfold process_valid_response
  rw [h2]
  simp only [List.cons.injEq, and_true, true_or, or_true, if_true]
  try dsimp only
  unfold process_novelty
  rw [if_pos (by simpa using h3)]
  try dsimp only
  have haddr :
      (process_status_response
        (validate_response response (m.address : Int)).data
        { m with retry_count := 0, consecutive_errors := 0,
                 last_communication := some now,
                 state := ModuleState.online }).1.address = m.address :=
    (process_status_response_preserves _ _).1
  rw [haddr]
  exact add_pending_command_mem_self _ _

/-- Witness for C3 (amended): an `S6` reply with an 8-byte novelty
payload from address 1 leaves the `O1` ack in the queue. -/
theorem s6_enqueues_novelty_ack_witness :
    ok_download_novelty 1 ∈
      (analyze_response ⟨true, true, true⟩
          [2, 48, 49, 83, 54, 131, 48, 48, 48, 48, 48, 48, 48, 3, 67, 50] 0
          { module_id := 1, address := 1 } {}).1.pending_commands :=
  s6_enqueues_novelty_ack ⟨true, true, true⟩
    [2, 48, 49, 83, 54, 131, 48, 48, 48, 48, 48, 48, 48, 3, 67, 50] 0
    { module_id := 1, address := 1 } {} (by decide) (by decide) (by decide)

/-- C4: every communication failure increments the module retry count
and consecutive-error count and the bus consecutive-error count by one
(the bus counter additionally resets in the same step if it crossed the
reopen threshold and the reopen succeeded, per the bus-recovery rule);
in the step where the retry count reaches `max_retries` the module
enters the error state with `retry_count` reset to 0 and its queue
cleared, and `module_state_changed` is published exactly once — on the
concrete three-failure run from a fresh module nothing is published on
the first two failures and exactly one notification on the third. -/
theorem comm_failure_counters_and_escalation (env : ExtEnv) (m : ModuleStatus) (bus : Bus) :
    (process_communication_error env m bus).1.consecutive_errors
        = m.consecutive_errors + 1 ∧
    (process_communication_error env m bus).2.1.consecutive_errors
        = (if bus.consecutive_errors + 1 ≥ bus.max_consecutive_errors ∧
              env.reopen_ok = true
           then 0 else bus.consecutive_errors + 1) ∧
    (if m.retry_count + 1 ≥ m.max_retries then
        (process_communication_error env m bus).1.state = ModuleState.error ∧
        (process_communication_error env m bus).1.retry_count = 0 ∧
        (process_communication_error env m bus).1.pending_commands = [] ∧
        (process_communication_error env m bus).2.2.1
          = [PollingEvent.module_state_changed]
      else
        (process_communication_error env m bus).1.retry_count = m.retry_count + 1 ∧
        (process_communication_error env m bus).2.2.1 = []) ∧
    ((runCommFailures ⟨true, true, true⟩ 2
        { module_id := 1, address := 1, pending_commands := [[0x4B]] } {}).2.2.1 = [] ∧
     (runCommFailures ⟨true, true, true⟩ 3
        { module_id := 1, address := 1, pending_commands := [[0x4B]] } {}).1.state
        = ModuleState.error ∧
     (runCommFailures ⟨true, true, true⟩ 3
        { module_id := 1, address := 1, pending_commands := [[0x4B]] } {}).1.retry_count
        = 0 ∧
     (runCommFailures ⟨true, true, true⟩ 3
        { module_id := 1, address := 1, pending_commands := [[0x4B]] } {}).1.pending_commands
        = [] ∧
     (runCommFailures ⟨true, true, true⟩ 3
        { module_id := 1, address := 1, pending_commands := [[0x4B]] } {}).2.2.1
        = [PollingEvent.module_state_changed]) := by
  refine ⟨?_, ?_, ?_, by decide⟩
  · unfold process_communication_error clear_pending_commands
    try dsimp only
    split <;> rfl
  · unfold process_communication_error
    try dsimp only
    by_cases hb : bus.consecutive_errors + 1 ≥ bus.max_consecutive_errors
    · by_cases hr : env.reopen_ok
      · simp [hb, hr]
      · simp [hb, hr]
    · simp [hb]
  · unfold process_communication_error clear_pending_commands
    try dsimp only
    by_cases hm : m.retry_count + 1 ≥ m.max_retries
    · simp [hm]
    · simp [hm]

/-- C5 counterexample: when the failure-processing step runs with the
bus counter already at the threshold (10) but the port reopen fails,
the reopen is invoked, yet the bus counter is not reset (it grows to
11) and the `port_reopen_count` diagnostic is not incremented —
contradicting the unconditional reset/increment of the claim. -/
theorem reopen_failure_counterexample :
    (process_communication_error ⟨true, true, false⟩ { module_id := 1, address := 1 }
        { consecutive_errors := 10 }).2.2.2 = true ∧
    ¬ ((process_communication_error ⟨true, true, false⟩ { module_id := 1, address := 1 }
        { consecutive_errors := 10 }).2.1.consecutive_errors = 0) ∧
    ¬ ((process_communication_error ⟨true, true, false⟩ { module_id := 1, address := 1 }
        { consecutive_errors := 10 }).2.1.port_reopen_count = 0 + 1) := by decide

/-- C5 (amended): whenever the failure step pushes the bus counter to
the reopen threshold or beyond, the reopen is invoked; when the reopen
*succeeds*, the bus counter resets to 0 and `port_reopen_count` grows
by one.  Consequently, after exactly 10 consecutive failed polls (with
a succeeding reopen) the reopen has been invoked exactly once — not in
the first 9 — and `port_reopen_count` is 1. -/
theorem bus_threshold_triggers_reopen (env : ExtEnv) (m : ModuleStatus) (bus : Bus)
    (h1 : bus.consecutive_errors + 1 ≥ bus.max_consecutive_errors)
    (h2 : env.reopen_ok = true) :
    (process_communication_error env m bus).2.2.2 = true ∧
    (process_communication_error env m bus).2.1.consecutive_errors = 0 ∧
    (process_communication_error env m bus).2.1.port_reopen_count
        = bus.port_reopen_count + 1 ∧
    ((runCommFailures ⟨true, true, true⟩ 10 { module_id := 1, address := 1 } {}).2.2.2
        = 1 ∧
     (runCommFailures ⟨true, true, true⟩ 9 { module_id := 1, address := 1 } {}).2.2.2
        = 0 ∧
     (runCommFailures ⟨true, true, true⟩ 10
        { module_id := 1, address := 1 } {}).2.1.port_reopen_count = 1 ∧
     (runCommFailures ⟨true, true, true⟩ 10
        { module_id := 1, address := 1 } {}).2.1.consecutive_errors = 0) := by
  refine ⟨?_, ?_, ?_, by decide⟩ <;>
  · unfold process_communication_error
    try dsimp only
    simp [h1, h2]

/-- Witness for C5 (amended): a bus one failure short of the threshold. -/
theorem bus_threshold_triggers_reopen_witness :
    (process_communication_error ⟨true, true, true⟩ { module_id := 1, address := 1 }
        { consecutive_errors := 9, port_reopen_count := 0 }).2.2.2 = true ∧
    (process_communication_error ⟨true, true, true⟩ { module_id := 1, address := 1 }
        { consecutive_errors := 9, port_reopen_count := 0 }).2.1.consecutive_errors
        = 0 ∧
    (process_communication_error ⟨true, true, true⟩ { module_id := 1, address := 1 }
        { consecutive_errors := 9, port_reopen_count := 0 }).2.1.port_reopen_count
        = 0 + 1 ∧
    ((runCommFailures ⟨true, true, true⟩ 10 { module_id := 1, address := 1 } {}).2.2.2
        = 1 ∧
     (runCommFailures ⟨true, true, true⟩ 9 { module_id := 1, address := 1 } {}).2.2.2
        = 0 ∧
     (runCommFailures ⟨true, true, true⟩ 10
        { module_id := 1, address := 1 } {}).2.1.port_reopen_count = 1 ∧
     (runCommFailures ⟨true, true, true⟩ 10
        { module_id := 1, address := 1 } {}).2.1.consecutive_errors = 0) :=
  bus_threshold_triggers_reopen ⟨true, true, true⟩ { module_id := 1, address := 1 }
    { consecutive_errors := 9, port_reopen_count := 0 } (by decide) (by decide)

/-- C8: the generated movement id satisfies the documented formula
`days_since_base * 10^8 + milliseconds_of_day`, but
`parse_movement_id` never recovers the generation date: the function
body references the unbound name `timedelta` (and shadows `time` with
the module), so every call lands in the exception branch and returns
the error dict — exhibited at the id generated one day after the base
date at midnight. -/
theorem movement_id_parse_never_recovers_date :
    (∀ t : Instant, generate_movement_id t =
        t.daysSinceBase * 100000000 + (milliseconds_today t : Int)) ∧
    generate_movement_id ⟨1, 0, 0, 0, 0⟩ = 100000000 ∧
    parse_movement_id (generate_movement_id ⟨1, 0, 0, 0, 0⟩) =
      ParsedMovement.error "NameError: name timedelta is not defined" ∧
    (∀ (mid d : Int) (hh mi s ms : Nat),
        parse_movement_id mid ≠ ParsedMovement.ok d hh mi s ms) := by
  refine ⟨fun t => rfl, by decide, rfl, ?_⟩
  intro mid d hh mi s ms
  simp [parse_movement_id]

/-- If a list has at most one element satisfying `p`, then after
erasing the first such element no element satisfying `p` remains. -/
theorem find?_eraseP_eq_none {α : Type} (p : α → Bool) :
    ∀ l : List α, l.countP p ≤ 1 → (l.eraseP p).find? p = none := by
  intro l
  induction l with
  | nil => intro _; rfl
  | cons a l ih =>
    intro hl
    by_cases ha : p a
    · rw [List.eraseP_cons_of_pos ha, List.find?_eq_none]
      intro x hx hpx
      have hzero : l.countP p = 0 := by
        rw [List.countP_cons_of_pos _ _ ha] at hl
        omega
      exact absurd hpx (List.countP_eq_zero.mp hzero x hx)
    · rw [List.eraseP_cons_of_neg ha, List.find?_cons_of_neg _ ha]
      apply ih
      rw [List.countP_cons_of_neg _ _ ha] at hl
      exact hl

/-- C9: validating a ticket never mutates the active or history sets;
it reports invalid exactly when the number is absent from the active
set and otherwise returns the stay duration `now − entry` in whole
minutes; and once `process_ticket_exit` closes a ticket — moving it to
history with the exit module id — re-validating the same number (when
ticket numbers are unique in the active set) reports invalid. -/
theorem ticket_validate_readonly_and_exit (db : TicketDB) (n now mid tex : Int)
    (t : TicketRec) :
    (validate_ticket db n now).1 = db ∧
    (db.active.find? (fun x => x.numero == n) = none →
       (validate_ticket db n now).2.1 = false ∧
       (validate_ticket db n now).2.2 = none) ∧
    (db.active.find? (fun x => x.numero == n) = some t →
       (validate_ticket db n now).2.1 = true ∧
       (validate_ticket db n now).2.2 =
         some { ticket_number := n
                entry_time := t.fechaHoraIngreso
                duration_minutes := (now - t.fechaHoraIngreso).tdiv 60
                entry_module := t.moduloIngresoID }) ∧
    (db.active.countP (fun x => x.numero == n) ≤ 1 →
     db.active.find? (fun x => x.numero == n) = some t →
       (process_ticket_exit db n mid tex).1.history =
         db.history ++
           [{ ticketID := t.ticketID
              numero := t.numero
              fechaHoraIngreso := t.fechaHoraIngreso
              moduloIngresoID := t.moduloIngresoID
              fechaHoraSalida := tex
              moduloSalidaID := mid }] ∧
       (process_ticket_exit db n mid tex).2.1 = true ∧
       (validate_ticket (process_ticket_exit db n mid tex).1 n now).2.1 = false) := by
  refine ⟨?_, ?_, ?_, ?_⟩
  · unfold validate_ticket
    split <;> rfl
  · intro h
    simp [validate_ticket, h]
  · intro h
    simp [validate_ticket, h]
  · intro hcount hfind
    have hnone := find?_eraseP_eq_none (fun x => x.numero == n) db.active hcount
    refine ⟨?_, ?_, ?_⟩
    · simp [process_ticket_exit, hfind]
    · simp [process_ticket_exit, hfind]
    · simp [process_ticket_exit, hfind, validate_ticket, hnone]

/-- Witness for C9: a one-ticket database; ticket 5 entered at second
1000 through module 2, exits at second 6400 through module 9. -/
theorem ticket_validate_readonly_and_exit_witness :
    (process_ticket_exit ⟨[⟨100, 5, 1000, 2, false⟩], []⟩ 5 9 6400).1.history =
      [] ++ [{ ticketID := 100, numero := 5, fechaHoraIngreso := 1000,
               moduloIngresoID := 2, fechaHoraSalida := 6400, moduloSalidaID := 9 }] ∧
    (process_ticket_exit ⟨[⟨100, 5, 1000, 2, false⟩], []⟩ 5 9 6400).2.1 = true ∧
    (validate_ticket (process_ticket_exit ⟨[⟨100, 5, 1000, 2, false⟩], []⟩ 5 9 6400).1
        5 6400).2.1 = false :=
  (ticket_validate_readonly_and_exit ⟨[⟨100, 5, 1000, 2, false⟩], []⟩ 5 6400 9 6400
    ⟨100, 5, 1000, 2, false⟩).2.2.2 (by decide) (by decide)

end WPC
